import Mathlib

/-!
# Verification of the BEST-WAY-SERVICES-LLC promo-lead service

Shallow embedding of the rate-limited lead-intake handler of the repository:

* the sliding-window rate limiter `isRateLimited` (identical in all four
  source files);
* the email regular expression `/^[^\s@]+@[^\s@]+\.[^\s@]{2,}$/i`;
* the three handler variants:
  the serverless handler with HubSpot sync (`src/unnamed/part_000`),
  the standalone-server handler (`src/server.js` / `src/unnamed/part_001`),
  and the serverless handler without a name check
  (`src/netlify/functions/promo-lead.js`).

Timestamps are `Int` (JavaScript `Date.now()` values; `Int` keeps the JS
behaviour that a future timestamp, for which `now - timestamp` is negative,
passes the `< RATE_WINDOW_MS` filter).  The rate-bucket map is a total
function `String → List Int` defaulting to `[]`, matching
`requestBuckets.get(ip) || []`.  `JSON.parse` and the CRM `fetch` are
modelled as explicit oracles passed to the handler.
-/

namespace BestWay

/-- `MAX_BODY_SIZE = 16 * 1024` bytes. -/
def MAX_BODY_SIZE : Nat := 16 * 1024

/-- `RATE_WINDOW_MS = 15 * 60 * 1000` milliseconds. -/
def RATE_WINDOW_MS : Int := 15 * 60 * 1000

/-- `RATE_MAX_REQUESTS = 5`. -/
def RATE_MAX_REQUESTS : Nat := 5

/-- The per-client rate buckets: `requestBuckets`, a map from client
identifier to the list of recorded timestamps, in insertion order.
An absent key reads as the empty list (`requestBuckets.get(ip) || []`). -/
def RateState : Type := String → List Int

/-- The fresh `new Map()`. -/
def emptyRateState : RateState := fun _ => []

/-- One rate-limiter check, `isRateLimited(ip)` at current time `now`:
filter the stored bucket by `now - timestamp < RATE_WINDOW_MS`, append
`now`, store the result back, and report limited when the new length
exceeds `RATE_MAX_REQUESTS`.  Returns the limited flag together with the
updated bucket map. -/
def isRateLimited (ip : String) (now : Int) (st : RateState) :
    Bool × RateState :=
  let current := st ip
  let withinWindow := current.filter (fun timestamp =>
    decide (now - timestamp < RATE_WINDOW_MS))
  let updated := withinWindow ++ [now]
  (decide (updated.length > RATE_MAX_REQUESTS),
   fun k => if k = ip then updated else st k)

/-- Run a sequence of rate-limiter checks for one client, keeping only the
final state (used to build concrete scenarios of repeated requests). -/
def runChecks (ip : String) (times : List Int) (st : RateState) : RateState :=
  times.foldl (fun s t => (isRateLimited ip t s).2) st

/-- A character allowed by the class `[^\s@]`: not whitespace and not `@`.
(The `i` flag of the source regex is irrelevant: the pattern has no
letter literals.) -/
def charOk (c : Char) : Bool := !c.isWhitespace && c != '@'

/-- Matcher for the tail pattern `[^\s@]{2,}$`. -/
def matchSuffix (l : List Char) : Bool :=
  decide (2 ≤ l.length) && l.all charOk

/-- Matcher for the literal-dot step `\.[^\s@]{2,}$`. -/
def matchDotTail : List Char → Bool
  | [] => false
  | c :: rest => decide (c = '.') && matchSuffix rest

/-- Matcher for `[^\s@]+\.[^\s@]{2,}$`: consume at least one `[^\s@]`
character, then at some position a literal dot followed by the suffix
pattern; the disjunction is the backtracking choice of where `+` stops. -/
def matchAfterAt : List Char → Bool
  | [] => false
  | c :: rest => charOk c && (matchDotTail rest || matchAfterAt rest)

/-- Matcher for the literal-`@` step `@[^\s@]+\.[^\s@]{2,}$`. -/
def matchAtTail : List Char → Bool
  | [] => false
  | c :: rest => decide (c = '@') && matchAfterAt rest

/-- Matcher for the whole anchored pattern
`^[^\s@]+@[^\s@]+\.[^\s@]{2,}$`: at least one `[^\s@]` character, then a
literal `@`, then the tail pattern. -/
def matchEmail : List Char → Bool
  | [] => false
  | c :: rest => charOk c && (matchAtTail rest || matchEmail rest)

/-- `emailRegex.test(s)` for
`emailRegex = /^[^\s@]+@[^\s@]+\.[^\s@]{2,}$/i`. -/
def emailRegexTest (s : String) : Bool := matchEmail s.data

/-- `Buffer.byteLength(s, "utf8")`: the UTF-8 byte length of a string. -/
def byteLength (s : String) : Nat := (s.data.map Char.utf8Size).sum

/-- Drop leading and trailing whitespace from a character list. -/
def trimChars (l : List Char) : List Char :=
  ((l.dropWhile Char.isWhitespace).reverse.dropWhile Char.isWhitespace).reverse

/-- JavaScript `s.trim()`. -/
def jsTrim (s : String) : String := String.mk (trimChars s.data)

/-- JavaScript `s.toLowerCase()` (character-wise lowering). -/
def jsToLower (s : String) : String := String.mk (s.data.map Char.toLower)

/-- JavaScript `s.split(",")[0]`: the prefix before the first comma (the
whole string when there is none). -/
def beforeFirstComma (s : String) : String :=
  String.mk (s.data.takeWhile (fun c => c ≠ ','))

/-- The JSON payloads the service ever serialises: `{}` (pre-flight),
`{ok:true}` (honeypot), `{ok:true, coupon}` and `{ok:false, error}`. -/
inductive Payload where
  | emptyObj : Payload
  | okOnly : Payload
  | okCoupon (coupon : String) : Payload
  | err (message : String) : Payload
deriving DecidableEq, Repr

/-- An HTTP response of the endpoint: status code, headers (in emission
order; a later entry with the same key overrides an earlier one, as the
JS object spread does) and the JSON body. -/
structure Response where
  statusCode : Nat
  headers : List (String × String)
  body : Payload
deriving DecidableEq, Repr

/-- Look a header up with the JS-object-spread override semantics: the
last entry for the key wins. -/
def headerValue (headers : List (String × String)) (key : String) :
    Option String :=
  (headers.reverse.find? (fun kv => kv.1 = key)).map (fun kv => kv.2)

/-- The `json(statusCode, payload, extraHeaders)` helper (and equally
`sendJson`): fixed `Content-Type` and `Cache-Control: no-store` headers,
with `extraHeaders` spread after them. -/
def json (statusCode : Nat) (payload : Payload)
    (extraHeaders : List (String × String) := []) : Response :=
  { statusCode := statusCode
    headers :=
      [("Content-Type", "application/json; charset=utf-8"),
       ("Cache-Control", "no-store")] ++ extraHeaders
    body := payload }

/-- A field of the parsed JSON body as the handler inspects it with
`typeof parsed.x === "string"`: absent, a string, or a non-string value. -/
inductive JField where
  | absent : JField
  | str (s : String) : JField
  | other : JField
deriving DecidableEq, Repr

/-- `typeof parsed.x === "string" ? parsed.x.trim() : dflt`. -/
def coerceField (f : JField) (dflt : String) : String :=
  match f with
  | .str s => jsTrim s
  | _ => dflt

/-- The fields of a parsed JSON body that any of the handlers reads. -/
structure ParsedBody where
  name : JField := .absent
  email : JField := .absent
  source : JField := .absent
  createdAt : JField := .absent
  pagePath : JField := .absent
  userAgent : JField := .absent
  company : JField := .absent
deriving DecidableEq, Repr

/-- The empty object `{}` that an empty raw body parses to. -/
def emptyBody : ParsedBody := {}

/-- `getClientIp(event)` of the serverless variants: first entry
(`forwarded.split(",")[0].trim()`) of a non-blank `x-forwarded-for`
header, else `"unknown"`. -/
def getClientIp (forwardedFor : Option String) : String :=
  match forwardedFor with
  | some forwarded =>
      if jsTrim forwarded ≠ "" then jsTrim (beforeFirstComma forwarded)
      else "unknown"
  | none => "unknown"

/-- `getClientIp(req)` of the standalone server: like the serverless one
but falling back to `req.socket.remoteAddress` before `"unknown"`. -/
def getClientIpServer (forwardedFor socketAddress : Option String) :
    String :=
  match forwardedFor with
  | some forwarded =>
      if jsTrim forwarded ≠ "" then jsTrim (beforeFirstComma forwarded)
      else match socketAddress with
           | some addr => addr
           | none => "unknown"
  | none =>
      match socketAddress with
      | some addr => addr
      | none => "unknown"

/-- Dropping a prefix cannot lengthen a list. -/
theorem length_dropWhile_le {α : Type} (p : α → Bool) (l : List α) :
    (l.dropWhile p).length ≤ l.length := by
  induction l with
  | nil => simp [List.dropWhile]
  | cons a l ih =>
      rw [List.dropWhile_cons]
      split
      · exact ih.trans (Nat.le_succ _)
      · exact Nat.le_refl _

/-- `name.replace(/\s+/g, " ")`: squash every whitespace run to a single
space. -/
def squashWhitespace : List Char → List Char
  | [] => []
  | c :: rest =>
      if c.isWhitespace then
        ' ' :: squashWhitespace (rest.dropWhile Char.isWhitespace)
      else
        c :: squashWhitespace rest
termination_by l => l.length
decreasing_by
  · simpa using Nat.lt_succ_of_le (length_dropWhile_le _ _)
  · simp

/-- `splitName(name)`: normalise whitespace, split on single spaces;
first word is the first name, the rest re-joined is the last name. -/
def splitName (name : String) : String × String :=
  let normalized := jsTrim (String.mk (squashWhitespace name.data))
  if normalized = "" then ("", "")
  else
    match normalized.splitOn " " with
    | [] => ("", "")
    | firstName :: rest => (firstName, String.intercalate " " rest)

/-- An upstream CRM (fetch) response.  Only the status drives control
flow; the response text feeds `getHubSpotErrorMessage`, whose result is
interpolated into the thrown error message, which the handler only logs
(the client always receives a fixed generic body). -/
structure HttpResponse where
  status : Nat
deriving DecidableEq, Repr

/-- `response.ok` of fetch: status in the range 200–299. -/
def respOk (r : HttpResponse) : Bool :=
  decide (200 ≤ r.status) && decide (r.status < 300)

/-- The `{properties: {email, firstname, lastname?}}` body sent to the
CRM. -/
structure CrmProperties where
  email : String
  firstname : String
  lastname : Option String
deriving DecidableEq, Repr

/-- One outbound CRM HTTP request, as issued by `callHubSpot`. -/
structure CrmCall where
  path : String
  method : String
  properties : CrmProperties
deriving DecidableEq, Repr

/-- The outcome of `syncLeadToHubSpot`: the `{skipped:true}` sentinel,
a successful `{skipped:false, action}`, or a thrown error carrying the
upstream status (the JS error message string is built from that status
and the extracted upstream error text; the handler only logs it). -/
inductive SyncResult where
  | skipped : SyncResult
  | done (action : String) : SyncResult
  | failed (status : Nat) : SyncResult
deriving DecidableEq, Repr

/-- Upper-case hexadecimal digit for a value below 16. -/
def hexDigit (n : Nat) : Char :=
  if n < 10 then Char.ofNat ('0'.toNat + n)
  else Char.ofNat ('A'.toNat + (n - 10))

/-- The UTF-8 bytes of a character. -/
def utf8Bytes (c : Char) : List Nat :=
  let n := c.toNat
  if n < 0x80 then [n]
  else if n < 0x800 then [0xC0 + n / 64, 0x80 + n % 64]
  else if n < 0x10000 then
    [0xE0 + n / 4096, 0x80 + n / 64 % 64, 0x80 + n % 64]
  else
    [0xF0 + n / 262144, 0x80 + n / 4096 % 64, 0x80 + n / 64 % 64,
     0x80 + n % 64]

/-- The characters `encodeURIComponent` leaves unescaped. -/
def isUnescapedURI (c : Char) : Bool :=
  c.isAlphanum || c = '-' || c = '_' || c = '.' || c = '!' || c = '~' ||
    c = '*' || c = '\'' || c = '(' || c = ')'

/-- JavaScript `encodeURIComponent`: unescaped characters pass through,
everything else becomes `%XX` per UTF-8 byte. -/
def encodeURIComponent (s : String) : String :=
  String.mk (s.data.flatMap (fun c =>
    if isUnescapedURI c then [c]
    else (utf8Bytes c).flatMap (fun b =>
      ['%', hexDigit (b / 16), hexDigit (b % 16)])))

/-- A lead record as the handlers construct it. -/
structure Lead where
  name : String
  email : String
  source : String
  createdAt : String
  createdAtClient : String
  pagePath : String
  userAgent : String
  ip : String
deriving DecidableEq, Repr

/-- `syncLeadToHubSpot(lead)` with the access token and the fetch oracle
made explicit: `crm n` is the response to the `n`-th fetch this call
performs.  Returns the outcome together with the list of CRM requests
issued, in order.  (`callHubSpot`'s own token re-check can only return
the skipped sentinel when the token is empty, which the leading guard
already handled, so those branches are dead and folded in.) -/
def syncLeadToHubSpot (token : String) (crm : Nat → HttpResponse)
    (lead : Lead) : SyncResult × List CrmCall :=
  if token = "" then (.skipped, [])
  else
    let fl := splitName lead.name
    let properties : CrmProperties :=
      { email := lead.email
        firstname := fl.1
        lastname := if fl.2 ≠ "" then some fl.2 else none }
    let patchCall : CrmCall :=
      { path := "/crm/v3/objects/contacts/" ++
          encodeURIComponent lead.email ++ "?idProperty=email"
        method := "PATCH"
        properties := properties }
    let patchResponse := crm 0
    if respOk patchResponse then
      (.done "updated", [patchCall])
    else if patchResponse.status ≠ 404 then
      (.failed patchResponse.status, [patchCall])
    else
      let createCall : CrmCall :=
        { path := "/crm/v3/objects/contacts"
          method := "POST"
          properties := properties }
      let createResponse := crm 1
      if respOk createResponse then
        (.done "created", [patchCall, createCall])
      else
        (.failed createResponse.status, [patchCall, createCall])

/-- A serverless invocation event, reduced to the data the handler reads:
the HTTP method, the raw body string (after the `isBase64Encoded`
branch and the `event.body || ""` default), the `x-forwarded-for`
header and the stringified `user-agent` header. -/
structure Event where
  httpMethod : String
  rawBody : String
  forwardedFor : Option String
  userAgentHeader : String
deriving Repr

/-- The serverless handler of `src/unnamed/part_000` (promo-lead function
with HubSpot sync).  `parseResult` is the outcome of
`JSON.parse(rawBody)` (consulted only when the raw body is non-empty),
`token` is `HUBSPOT_ACCESS_TOKEN`, `crm` the fetch oracle, `now` the
`Date.now()` clock and `nowIso` the `new Date().toISOString()` stamp.
Returns the response, the updated rate buckets and the CRM calls
issued. -/
def handler (event : Event) (parseResult : Except Unit ParsedBody)
    (token : String) (crm : Nat → HttpResponse) (now : Int)
    (nowIso : String) (st : RateState) :
    Response × RateState × List CrmCall :=
  if event.httpMethod = "OPTIONS" then
    (json 204 .emptyObj [("Allow", "POST, OPTIONS")], st, [])
  else if event.httpMethod ≠ "POST" then
    (json 405 (.err "Method not allowed.") [("Allow", "POST")], st, [])
  else if byteLength event.rawBody > MAX_BODY_SIZE then
    (json 413 (.err "Payload too large."), st, [])
  else
    let ip := getClientIp event.forwardedFor
    let rl := isRateLimited ip now st
    let st' := rl.2
    if rl.1 then
      (json 429 (.err "Too many requests. Try again later."), st', [])
    else
      match (if event.rawBody ≠ "" then parseResult
             else Except.ok emptyBody) with
      | .error _ => (json 400 (.err "Invalid request body."), st', [])
      | .ok parsed =>
          let name := coerceField parsed.name ""
          let email := coerceField parsed.email ""
          let source := coerceField parsed.source "promo-email"
          let createdAtClient := coerceField parsed.createdAt nowIso
          let pagePath := coerceField parsed.pagePath "/promo-email/"
          let userAgent := coerceField parsed.userAgent event.userAgentHeader
          let company := coerceField parsed.company ""
          if company ≠ "" then
            (json 200 .okOnly, st', [])
          else if name.length < 2 then
            (json 400 (.err "Please send your name."), st', [])
          else if !emailRegexTest email then
            (json 400 (.err "Please send a valid email address."), st', [])
          else
            let lead : Lead :=
              { name := name
                email := jsToLower email
                source := if source ≠ "" then source else "promo-email"
                createdAt := nowIso
                createdAtClient := createdAtClient
                pagePath := pagePath
                userAgent := userAgent
                ip := ip }
            let sync := syncLeadToHubSpot token crm lead
            match sync.1 with
            | .failed _ =>
                (json 502 (.err
                  "Unable to save your lead right now. Please try again."),
                 st', sync.2)
            | _ => (json 200 (.okCoupon "BEST10"), st', sync.2)

/-- An incoming request of the standalone server, reduced to the data
`handlePromoLead` reads.  `rawBody` is the full streamed body; the
`parseBody` promise resolves to it, or rejects with `PAYLOAD_TOO_LARGE`
as soon as the accumulated bytes exceed the ceiling. -/
structure ServerReq where
  method : String
  rawBody : String
  forwardedFor : Option String
  remoteAddress : Option String
  userAgentHeader : String
deriving Repr

/-- `handlePromoLead` of `src/unnamed/part_001` (`src/server.js` is the
same handler with the HubSpot forwarding step still a TODO).  Unlike the
serverless variant, the rate limiter runs before the body is read, the
size ceiling is enforced while streaming the body, and the `pagePath`
default is applied when constructing the lead rather than at field
extraction. -/
def handlePromoLead (req : ServerReq) (parseResult : Except Unit ParsedBody)
    (token : String) (crm : Nat → HttpResponse) (now : Int)
    (nowIso : String) (st : RateState) :
    Response × RateState × List CrmCall :=
  if req.method = "OPTIONS" then
    (json 204 .emptyObj [("Allow", "POST, OPTIONS")], st, [])
  else if req.method ≠ "POST" then
    (json 405 (.err "Method not allowed.") [("Allow", "POST")], st, [])
  else
    let ip := getClientIpServer req.forwardedFor req.remoteAddress
    let rl := isRateLimited ip now st
    let st' := rl.2
    if rl.1 then
      (json 429 (.err "Too many requests. Try again later."), st', [])
    else if byteLength req.rawBody > MAX_BODY_SIZE then
      (json 413 (.err "Payload too large."), st', [])
    else
      match (if req.rawBody ≠ "" then parseResult
             else Except.ok emptyBody) with
      | .error _ => (json 400 (.err "Invalid request body."), st', [])
      | .ok parsed =>
          let name := coerceField parsed.name ""
          let email := coerceField parsed.email ""
          let source := coerceField parsed.source "promo-email"
          let createdAtClient := coerceField parsed.createdAt nowIso
          let pagePath := coerceField parsed.pagePath ""
          let userAgent := coerceField parsed.userAgent req.userAgentHeader
          let company := coerceField parsed.company ""
          if company ≠ "" then
            (json 200 .okOnly, st', [])
          else if name.length < 2 then
            (json 400 (.err "Please send your name."), st', [])
          else if !emailRegexTest email then
            (json 400 (.err "Please send a valid email address."), st', [])
          else
            let lead : Lead :=
              { name := name
                email := jsToLower email
                source := if source ≠ "" then source else "promo-email"
                createdAt := nowIso
                createdAtClient := createdAtClient
                pagePath := if pagePath ≠ "" then pagePath else "/promo-email/"
                userAgent := userAgent
                ip := ip }
            let sync := syncLeadToHubSpot token crm lead
            match sync.1 with
            | .failed _ =>
                (json 502 (.err
                  "Unable to save your lead right now. Please try again."),
                 st', sync.2)
            | _ => (json 200 (.okCoupon "BEST10"), st', sync.2)

/-- The lead record of `src/netlify/functions/promo-lead.js`, which
collects no name. -/
structure NetlifyLead where
  email : String
  source : String
  createdAt : String
  createdAtClient : String
  pagePath : String
  userAgent : String
  ip : String
deriving DecidableEq, Repr

/-- The handler of `src/netlify/functions/promo-lead.js`: the serverless
variant that collects no name and whose CRM forwarding is still a TODO
(the constructed lead is only logged). -/
def promoLeadHandler (event : Event) (parseResult : Except Unit ParsedBody)
    (now : Int) (nowIso : String) (st : RateState) :
    Response × RateState :=
  if event.httpMethod = "OPTIONS" then
    (json 204 .emptyObj [("Allow", "POST, OPTIONS")], st)
  else if event.httpMethod ≠ "POST" then
    (json 405 (.err "Method not allowed.") [("Allow", "POST")], st)
  else if byteLength event.rawBody > MAX_BODY_SIZE then
    (json 413 (.err "Payload too large."), st)
  else
    let ip := getClientIp event.forwardedFor
    let rl := isRateLimited ip now st
    let st' := rl.2
    if rl.1 then
      (json 429 (.err "Too many requests. Try again later."), st')
    else
      match (if event.rawBody ≠ "" then parseResult
             else Except.ok emptyBody) with
      | .error _ => (json 400 (.err "Invalid request body."), st')
      | .ok parsed =>
          let email := coerceField parsed.email ""
          let source := coerceField parsed.source "promo-email"
          let createdAtClient := coerceField parsed.createdAt nowIso
          let pagePath := coerceField parsed.pagePath "/promo-email/"
          let userAgent := coerceField parsed.userAgent event.userAgentHeader
          let company := coerceField parsed.company ""
          if company ≠ "" then
            (json 200 .okOnly, st')
          else if !emailRegexTest email then
            (json 400 (.err "Please send a valid email address."), st')
          else
            let _lead : NetlifyLead :=
              { email := jsToLower email
                source := if source ≠ "" then source else "promo-email"
                createdAt := nowIso
                createdAtClient := createdAtClient
                pagePath := pagePath
                userAgent := userAgent
                ip := ip }
            (json 200 (.okCoupon "BEST10"), st')

/-- The acceptance condition stated by the specification for the email
pattern: a non-empty whitespace/`@`-free local part, an `@`, a non-empty
whitespace/`@`-free domain, a dot, and a suffix of at least two such
characters.  (Stated over the claim's words, to be compared with the
matcher `emailRegexTest` taken from the source.) -/
def emailClaimSpec (s : String) : Prop :=
  ∃ lp d suf : List Char,
    s.data = lp ++ '@' :: (d ++ '.' :: suf) ∧
    lp ≠ [] ∧ d ≠ [] ∧ 2 ≤ suf.length ∧
    (∀ c ∈ lp, charOk c = true) ∧ (∀ c ∈ d, charOk c = true) ∧
    (∀ c ∈ suf, charOk c = true)

/-- A concrete body of 16385 ASCII bytes, one over `MAX_BODY_SIZE`. -/
def oversizedBody : String := String.mk (List.replicate 16385 'a')

/-! Concrete fixtures used to instantiate the theorems on closed values. -/

/-- A plain POST event with a non-empty body. -/
def sampleEvent : Event :=
  { httpMethod := "POST", rawBody := "body",
    forwardedFor := some "1.2.3.4", userAgentHeader := "ua" }

/-- A plain POST server request with a non-empty body. -/
def sampleReq : ServerReq :=
  { method := "POST", rawBody := "body", forwardedFor := some "1.2.3.4",
    remoteAddress := none, userAgentHeader := "ua" }

/-- A POST event whose raw body is the empty string. -/
def emptyBodyEvent : Event :=
  { httpMethod := "POST", rawBody := "",
    forwardedFor := some "1.2.3.4", userAgentHeader := "ua" }

/-- A POST server request whose raw body is the empty string. -/
def emptyBodyReq : ServerReq :=
  { method := "POST", rawBody := "", forwardedFor := some "1.2.3.4",
    remoteAddress := none, userAgentHeader := "ua" }

/-- A POST event carrying the oversized body. -/
def oversizedEvent : Event :=
  { httpMethod := "POST", rawBody := oversizedBody,
    forwardedFor := some "1.2.3.4", userAgentHeader := "ua" }

/-- A POST server request carrying the oversized body. -/
def oversizedReq : ServerReq :=
  { method := "POST", rawBody := oversizedBody,
    forwardedFor := some "9.9.9.9", remoteAddress := none,
    userAgentHeader := "ua" }

/-- A parsed body with a valid name and email. -/
def validParsed : ParsedBody := { name := .str "Jo", email := .str "a@b.co" }

/-- A CRM oracle answering 404 to the first call and 201 to the rest. -/
def crm404then201 : Nat → HttpResponse :=
  fun n => if n = 0 then ⟨404⟩ else ⟨201⟩

/-- A CRM oracle answering 500 to every call. -/
def crm500 : Nat → HttpResponse := fun _ => ⟨500⟩

/-- A rate state in which `"9.9.9.9"` has five recorded timestamps. -/
def fullState : RateState :=
  runChecks "9.9.9.9" [0, 0, 0, 0, 0] emptyRateState

/-! ## Characterisation of the regex matcher -/

theorem matchSuffix_eq (l : List Char) :
    matchSuffix l = true ↔ 2 ≤ l.length ∧ ∀ c ∈ l, charOk c = true := by
  simp [matchSuffix, List.all_eq_true]

theorem matchDotTail_eq (l : List Char) :
    matchDotTail l = true ↔
      ∃ suf, l = '.' :: suf ∧ matchSuffix suf = true := by
  cases l with
  | nil => simp [matchDotTail]
  | cons c rest =>
      simp only [matchDotTail, Bool.and_eq_true, decide_eq_true_eq]
      constructor
      · rintro ⟨rfl, hs⟩
        exact ⟨rest, rfl, hs⟩
      · rintro ⟨suf, heq, hs⟩
        obtain ⟨rfl, rfl⟩ := List.cons_eq_cons.mp heq
        exact ⟨rfl, hs⟩

theorem matchAfterAt_eq (r : List Char) :
    matchAfterAt r = true ↔
      ∃ d suf, r = d ++ '.' :: suf ∧ d ≠ [] ∧
        (∀ c ∈ d, charOk c = true) ∧ matchSuffix suf = true := by
  induction r with
  | nil =>
      simp only [matchAfterAt]
      constructor
      · intro h; exact absurd h (by simp)
      · rintro ⟨d, suf, heq, -, -, -⟩
        exact absurd heq.symm (by simp)
  | cons c rest ih =>
      simp only [matchAfterAt, Bool.and_eq_true, Bool.or_eq_true]
      constructor
      · rintro ⟨hc, hdot | hrec⟩
        · obtain ⟨suf, rfl, hs⟩ := (matchDotTail_eq rest).mp hdot
          exact ⟨[c], suf, rfl, by simp, by simpa using hc, hs⟩
        · obtain ⟨d, suf, rfl, hd, hall, hs⟩ := ih.mp hrec
          refine ⟨c :: d, suf, rfl, by simp, ?_, hs⟩
          intro x hx
          rcases List.mem_cons.mp hx with rfl | hx
          · exact hc
          · exact hall x hx
      · rintro ⟨d, suf, heq, hd, hall, hs⟩
        cases d with
        | nil => exact absurd rfl hd
        | cons c' d' =>
            obtain ⟨rfl, rfl⟩ := List.cons_eq_cons.mp heq
            refine ⟨hall c (List.mem_cons_self _ _), ?_⟩
            cases d' with
            | nil =>
                exact Or.inl ((matchDotTail_eq _).mpr ⟨suf, rfl, hs⟩)
            | cons c'' d'' =>
                refine Or.inr (ih.mpr ⟨c'' :: d'', suf, rfl, by simp, ?_, hs⟩)
                intro x hx
                exact hall x (List.mem_cons_of_mem _ hx)

theorem matchAtTail_eq (l : List Char) :
    matchAtTail l = true ↔
      ∃ r, l = '@' :: r ∧ matchAfterAt r = true := by
  cases l with
  | nil => simp [matchAtTail]
  | cons c rest =>
      simp only [matchAtTail, Bool.and_eq_true, decide_eq_true_eq]
      constructor
      · rintro ⟨rfl, hs⟩
        exact ⟨rest, rfl, hs⟩
      · rintro ⟨r, heq, hs⟩
        obtain ⟨rfl, rfl⟩ := List.cons_eq_cons.mp heq
        exact ⟨rfl, hs⟩

theorem matchEmail_eq (s : List Char) :
    matchEmail s = true ↔
      ∃ lp r, s = lp ++ '@' :: r ∧ lp ≠ [] ∧
        (∀ c ∈ lp, charOk c = true) ∧ matchAfterAt r = true := by
  induction s with
  | nil =>
      simp only [matchEmail]
      constructor
      · intro h; exact absurd h (by simp)
      · rintro ⟨lp, r, heq, -, -, -⟩
        exact absurd heq.symm (by simp)
  | cons c rest ih =>
      simp only [matchEmail, Bool.and_eq_true, Bool.or_eq_true]
      constructor
      · rintro ⟨hc, hat | hrec⟩
        · obtain ⟨r, rfl, hs⟩ := (matchAtTail_eq rest).mp hat
          exact ⟨[c], r, rfl, by simp, by simpa using hc, hs⟩
        · obtain ⟨lp, r, rfl, hlp, hall, hs⟩ := ih.mp hrec
          refine ⟨c :: lp, r, rfl, by simp, ?_, hs⟩
          intro x hx
          rcases List.mem_cons.mp hx with rfl | hx
          · exact hc
          · exact hall x hx
      · rintro ⟨lp, r, heq, hlp, hall, hs⟩
        cases lp with
        | nil => exact absurd rfl hlp
        | cons c' lp' =>
            obtain ⟨rfl, rfl⟩ := List.cons_eq_cons.mp heq
            refine ⟨hall c (List.mem_cons_self _ _), ?_⟩
            cases lp' with
            | nil =>
                exact Or.inl ((matchAtTail_eq _).mpr ⟨r, rfl, hs⟩)
            | cons c'' lp'' =>
                refine Or.inr (ih.mpr ⟨c'' :: lp'', r, rfl, by simp, ?_, hs⟩)
                intro x hx
                exact hall x (List.mem_cons_of_mem _ hx)

/-! ## Rate limiter -/

/-- Numeric value of the window constant, for arithmetic reasoning. -/
theorem RATE_WINDOW_MS_eq : RATE_WINDOW_MS = 900000 := by norm_num [RATE_WINDOW_MS]

/-- The limited flag of a check, as a function of the stored bucket. -/
theorem isRateLimited_fst_eq (st : RateState) (ip : String) (T : Int) :
    (isRateLimited ip T st).1 =
      decide (((st ip).filter
        (fun t => decide (T - t < RATE_WINDOW_MS))).length + 1
          > RATE_MAX_REQUESTS) := by
  simp [isRateLimited]

/-- C7: the claim states the bucket is filtered to the *closed* interval
`[T - windowDuration, T]`, a timestamp exactly `windowDuration` old being
retained.  The code filters with the strict `now - timestamp <
RATE_WINDOW_MS`: on the bucket `[0]` checked at `T = 900000` — a
timestamp exactly one window old — the code stores `[900000]`, not the
`[0, 900000]` the closed-interval description would produce. -/
theorem rate_filter_closed_interval_counterexample :
    ((900000 : Int) - 0 = RATE_WINDOW_MS) ∧
    (isRateLimited "ip" 900000
        (fun k => if k = "ip" then [0] else [])).2 "ip" = [900000] ∧
    (((fun k => if k = "ip" then ([0] : List Int) else []) "ip").filter
        (fun t => decide ((900000 : Int) - RATE_WINDOW_MS ≤ t ∧ t ≤ 900000))
      ++ [(900000 : Int)]) = [0, 900000] ∧
    ([(900000 : Int)] : List Int) ≠ [0, 900000] := by
  refine ⟨by norm_num [RATE_WINDOW_MS], ?_, ?_, by decide⟩ <;>
    simp [isRateLimited, RATE_WINDOW_MS, RATE_MAX_REQUESTS]

/-- C7 (amended): on every check at time `T`, assuming every stored
timestamp is at most `T`, the stored-back sequence is the old sequence
filtered to the *half-open* interval `(T - windowDuration, T]` — a
timestamp exactly `windowDuration` old is dropped — with `T` appended,
and the check reports limited exactly when the resulting count exceeds
the threshold of 5. -/
theorem rate_check_halfopen_window (st : RateState) (ip : String) (T : Int)
    (hle : ∀ t ∈ st ip, t ≤ T) :
    (isRateLimited ip T st).2 ip =
      (st ip).filter (fun t => decide (T - RATE_WINDOW_MS < t ∧ t ≤ T))
        ++ [T] ∧
    ((isRateLimited ip T st).1 = true ↔
      RATE_MAX_REQUESTS <
        ((st ip).filter
          (fun t => decide (T - RATE_WINDOW_MS < t ∧ t ≤ T))).length + 1) := by
  have hfilter : (st ip).filter (fun t => decide (T - t < RATE_WINDOW_MS)) =
      (st ip).filter (fun t => decide (T - RATE_WINDOW_MS < t ∧ t ≤ T)) := by
    apply List.filter_congr
    intro t ht
    have h1 : t ≤ T := hle t ht
    simp only [decide_eq_decide]
    omega
  constructor
  · simp [isRateLimited, hfilter]
  · simp [isRateLimited, hfilter]

/-- Closed instance of `rate_check_halfopen_window` at the empty bucket
and `T = 0`. -/
theorem rate_check_halfopen_window_witness :
    (∀ t ∈ emptyRateState "ip", t ≤ (0 : Int)) ∧
    ((isRateLimited "ip" 0 emptyRateState).2 "ip" =
      (emptyRateState "ip").filter
          (fun t => decide ((0 : Int) - RATE_WINDOW_MS < t ∧ t ≤ 0))
        ++ [(0 : Int)] ∧
    ((isRateLimited "ip" 0 emptyRateState).1 = true ↔
      RATE_MAX_REQUESTS <
        ((emptyRateState "ip").filter
          (fun t => decide ((0 : Int) - RATE_WINDOW_MS < t ∧ t ≤ 0))).length
          + 1)) :=
  ⟨by simp [emptyRateState],
   rate_check_halfopen_window emptyRateState "ip" 0 (by simp [emptyRateState])⟩

/-- C1: after five checks at times 0, 100, 100, 100, 100 (all within the
window of time 200), the 6th check at 200 is rejected — but the claim's
second half fails: at time 900001 the oldest recorded timestamp 0 has
fallen outside the 15-minute window, yet the check is still rejected,
because the rejected 6th check's own timestamp was recorded too, leaving
five timestamps (100, 100, 100, 100, 200) inside the window. -/
theorem rate_oldest_out_still_limited_counterexample :
    (∀ t ∈ (runChecks "ip" [0, 100, 100, 100, 100] emptyRateState) "ip",
        (200 : Int) - t < RATE_WINDOW_MS) ∧
    (isRateLimited "ip" 200
        (runChecks "ip" [0, 100, 100, 100, 100] emptyRateState)).1 = true ∧
    RATE_WINDOW_MS ≤ (900001 : Int) - 0 ∧
    (isRateLimited "ip" 900001
        (isRateLimited "ip" 200
          (runChecks "ip" [0, 100, 100, 100, 100] emptyRateState)).2).1
      = true := by
  refine ⟨by decide, by decide, by norm_num [RATE_WINDOW_MS], by decide⟩

/-- C1 (amended): with five prior checks' timestamps stored and all
inside the trailing window at time `T`, the 6th check at `T` is rejected
and `T` itself is recorded as well; a later check at time `T'` is then
accepted if and only if at most four of the six recorded timestamps
(the five prior checks' and the rejected sixth's) still lie inside the
trailing window at `T'` — the oldest alone falling outside is not
sufficient. -/
theorem rate_sixth_rejected_acceptance_iff (st : RateState) (ip : String)
    (t1 t2 t3 t4 t5 T : Int)
    (hbucket : st ip = [t1, t2, t3, t4, t5])
    (hwin : ∀ t ∈ st ip, T - t < RATE_WINDOW_MS) :
    (isRateLimited ip T st).1 = true ∧
    (isRateLimited ip T st).2 ip = [t1, t2, t3, t4, t5, T] ∧
    (∀ T' : Int,
      (isRateLimited ip T' (isRateLimited ip T st).2).1 = false ↔
        (([t1, t2, t3, t4, t5, T].filter
            (fun t => decide (T' - t < RATE_WINDOW_MS))).length ≤ 4)) := by
  rw [hbucket] at hwin
  have h1 := hwin t1 (by simp)
  have h2 := hwin t2 (by simp)
  have h3 := hwin t3 (by simp)
  have h4 := hwin t4 (by simp)
  have h5 := hwin t5 (by simp)
  have hkeep : ([t1, t2, t3, t4, t5].filter
      (fun t => decide (T - t < RATE_WINDOW_MS))) = [t1, t2, t3, t4, t5] := by
    simp [List.filter, h1, h2, h3, h4, h5]
  refine ⟨?_, ?_, ?_⟩
  · simp [isRateLimited, hbucket, hkeep, RATE_MAX_REQUESTS]
  · simp [isRateLimited, hbucket, hkeep]
  · intro T'
    have hbucket' : (isRateLimited ip T st).2 ip = [t1, t2, t3, t4, t5, T] := by
      simp [isRateLimited, hbucket, hkeep]
    rw [isRateLimited_fst_eq, hbucket']
    simp only [RATE_MAX_REQUESTS, decide_eq_false_iff_not, not_lt]
    omega

/-- Closed instance of `rate_sixth_rejected_acceptance_iff`: five checks
recorded at 0, 100, 100, 100, 100; the 6th at 200 is rejected, and the
acceptance criterion is exercised at `T' = 900101`, where only the
timestamp 200 remains inside the window, so the check is accepted. -/
theorem rate_sixth_rejected_acceptance_iff_witness :
    ((fun k => if k = "ip" then ([0, 100, 100, 100, 100] : List Int) else [])
        "ip" = [0, 100, 100, 100, 100]) ∧
    (∀ t ∈ (fun k => if k = "ip" then ([0, 100, 100, 100, 100] : List Int)
        else []) "ip", (200 : Int) - t < RATE_WINDOW_MS) ∧
    ((isRateLimited "ip" 200
        (fun k => if k = "ip" then [0, 100, 100, 100, 100] else [])).1 = true ∧
     (isRateLimited "ip" 200
        (fun k => if k = "ip" then [0, 100, 100, 100, 100] else [])).2 "ip"
        = [0, 100, 100, 100, 100, 200] ∧
     (∀ T' : Int,
        (isRateLimited "ip" T'
          (isRateLimited "ip" 200
            (fun k => if k = "ip" then [0, 100, 100, 100, 100] else [])).2).1
          = false ↔
        (([(0 : Int), 100, 100, 100, 100, 200].filter
            (fun t => decide (T' - t < RATE_WINDOW_MS))).length ≤ 4))) ∧
    (isRateLimited "ip" 900101
        (isRateLimited "ip" 200
          (fun k => if k = "ip" then [0, 100, 100, 100, 100] else [])).2).1
      = false :=
  ⟨by decide, by decide,
   rate_sixth_rejected_acceptance_iff _ "ip" 0 100 100 100 100 200
     (by decide) (by decide),
   by decide⟩

/-- C10: assuming the clock is non-decreasing across calls — expressed
as the inductive hypotheses that the stored bucket is sorted and all its
timestamps are at most the current time `T` — after a check at `T` the
stored sequence for that client is sorted non-decreasing, ends with `T`,
and contains only timestamps in `(T - windowDuration, T]`; every other
client's bucket is unchanged. -/
theorem rate_bucket_invariant (st : RateState) (ip : String) (T : Int)
    (hsorted : (st ip).Sorted (· ≤ ·))
    (hle : ∀ t ∈ st ip, t ≤ T) :
    ((isRateLimited ip T st).2 ip).Sorted (· ≤ ·) ∧
    ((isRateLimited ip T st).2 ip).getLast? = some T ∧
    (∀ t ∈ (isRateLimited ip T st).2 ip,
      T - RATE_WINDOW_MS < t ∧ t ≤ T) ∧
    (∀ ip', ip' ≠ ip → (isRateLimited ip T st).2 ip' = st ip') := by
  have hnew : (isRateLimited ip T st).2 ip =
      (st ip).filter (fun t => decide (T - t < RATE_WINDOW_MS)) ++ [T] := by
    simp [isRateLimited]
  refine ⟨?_, ?_, ?_, ?_⟩
  · rw [hnew]
    unfold List.Sorted
    rw [List.pairwise_append]
    refine ⟨hsorted.filter _, List.pairwise_singleton _ _, ?_⟩
    intro x hx y hy
    simp only [List.mem_singleton] at hy
    subst hy
    exact hle x (List.mem_of_mem_filter hx)
  · rw [hnew]; simp
  · rw [hnew]
    intro t ht
    rcases List.mem_append.mp ht with hf | hT
    · obtain ⟨hmem, hdec⟩ := List.mem_filter.mp hf
      have hlt : T - t < RATE_WINDOW_MS := of_decide_eq_true hdec
      exact ⟨by omega, hle t hmem⟩
    · simp only [List.mem_singleton] at hT
      subst hT
      have : RATE_WINDOW_MS = 900000 := RATE_WINDOW_MS_eq
      exact ⟨by omega, le_refl _⟩
  · intro ip' hne
    simp [isRateLimited, hne]

/-- Closed instance of `rate_bucket_invariant` at bucket `[1, 2]`,
`T = 5`. -/
theorem rate_bucket_invariant_witness :
    ((fun k => if k = "ip" then ([1, 2] : List Int) else [7]) "ip").Sorted
        (· ≤ ·) ∧
    (∀ t ∈ (fun k => if k = "ip" then ([1, 2] : List Int) else [7]) "ip",
        t ≤ (5 : Int)) ∧
    (((isRateLimited "ip" 5
        (fun k => if k = "ip" then [1, 2] else [7])).2 "ip").Sorted (· ≤ ·) ∧
      ((isRateLimited "ip" 5
        (fun k => if k = "ip" then [1, 2] else [7])).2 "ip").getLast?
        = some 5 ∧
      (∀ t ∈ (isRateLimited "ip" 5
          (fun k => if k = "ip" then [1, 2] else [7])).2 "ip",
        (5 : Int) - RATE_WINDOW_MS < t ∧ t ≤ 5) ∧
      (∀ ip', ip' ≠ "ip" →
        (isRateLimited "ip" 5
          (fun k => if k = "ip" then [1, 2] else [7])).2 ip'
          = (fun k => if k = "ip" then ([1, 2] : List Int) else [7]) ip')) :=
  ⟨by decide, by decide,
   rate_bucket_invariant _ "ip" 5 (by decide) (by decide)⟩

/-! ## Email validation -/

/-- C6: the email matcher accepts exactly the strings that decompose as
a non-empty whitespace/`@`-free local part, `@`, a non-empty
whitespace/`@`-free domain, a dot, and a whitespace/`@`-free suffix of
length at least 2; in particular `"not-an-email"` is rejected — the
handler answers 400 — and `"a@b.co"` passes format validation. -/
theorem email_regex_characterization :
    (∀ s : String, emailRegexTest s = true ↔ emailClaimSpec s) ∧
    emailRegexTest "not-an-email" = false ∧
    emailRegexTest "a@b.co" = true ∧
    (handler
        { httpMethod := "POST", rawBody := "body",
          forwardedFor := some "1.2.3.4", userAgentHeader := "ua" }
        (.ok { name := .str "Jo", email := .str "not-an-email" })
        "" (fun _ => ⟨200⟩) 0 "2024-01-01T00:00:00.000Z"
        emptyRateState).1
      = json 400 (.err "Please send a valid email address.") := by
  refine ⟨?_, by decide, by decide, by decide⟩
  intro s
  rw [emailRegexTest, matchEmail_eq]
  constructor
  · rintro ⟨lp, r, hsd, hlp, hall, hafter⟩
    obtain ⟨d, suf, rfl, hd, halld, hsuf⟩ := (matchAfterAt_eq r).mp hafter
    obtain ⟨hlen, hsufall⟩ := (matchSuffix_eq suf).mp hsuf
    exact ⟨lp, d, suf, hsd, hlp, hd, hlen, hall, halld, hsufall⟩
  · rintro ⟨lp, d, suf, hsd, hlp, hd, hlen, halp, halld, hallsuf⟩
    exact ⟨lp, d ++ '.' :: suf, hsd, hlp, halp,
      (matchAfterAt_eq _).mpr
        ⟨d, suf, rfl, hd, halld, (matchSuffix_eq _).mpr ⟨hlen, hallsuf⟩⟩⟩

/-! ## Response headers -/

/-- Any response built by the `json` helper with extra headers that do
not mention `Cache-Control` carries `Cache-Control: no-store`. -/
theorem headerValue_json_cache (c : Nat) (p : Payload)
    (extra : List (String × String))
    (h : ∀ kv ∈ extra, kv.1 ≠ "Cache-Control") :
    headerValue (json c p extra).headers "Cache-Control"
      = some "no-store" := by
  unfold headerValue json
  simp only [List.reverse_append]
  rw [List.find?_append]
  have hnone : extra.reverse.find?
      (fun kv => kv.1 = "Cache-Control") = none := by
    rw [List.find?_eq_none]
    intro kv hkv
    simp only [decide_eq_true_eq]
    exact h kv (List.mem_reverse.mp hkv)
  rw [hnone]
  rfl

/-- Every serverless-handler response carries `Cache-Control: no-store`. -/
theorem handler_no_store (event : Event)
    (parseResult : Except Unit ParsedBody) (token : String)
    (crm : Nat → HttpResponse) (now : Int) (nowIso : String)
    (st : RateState) :
    headerValue (handler event parseResult token crm now nowIso st).1.headers
      "Cache-Control" = some "no-store" := by
  dsimp only [handler]
  repeat' split
  all_goals (apply headerValue_json_cache; decide)

/-- Every standalone-server response carries `Cache-Control: no-store`. -/
theorem handlePromoLead_no_store (req : ServerReq)
    (parseResult : Except Unit ParsedBody) (token : String)
    (crm : Nat → HttpResponse) (now : Int) (nowIso : String)
    (st : RateState) :
    headerValue
      (handlePromoLead req parseResult token crm now nowIso st).1.headers
      "Cache-Control" = some "no-store" := by
  dsimp only [handlePromoLead]
  repeat' split
  all_goals (apply headerValue_json_cache; decide)

/-- Every no-name-variant response carries `Cache-Control: no-store`. -/
theorem promoLeadHandler_no_store (event : Event)
    (parseResult : Except Unit ParsedBody) (now : Int) (nowIso : String)
    (st : RateState) :
    headerValue (promoLeadHandler event parseResult now nowIso st).1.headers
      "Cache-Control" = some "no-store" := by
  dsimp only [promoLeadHandler]
  repeat' split
  all_goals (apply headerValue_json_cache; decide)

/-- C8: every response of the promo-lead endpoint — in the serverless
handler, the standalone-server handler, and the no-name serverless
variant, on every branch including the 204 pre-flight — carries the
header `Cache-Control: no-store`. -/
theorem responses_cache_control_no_store :
    ∀ (event : Event) (req : ServerReq)
      (parseResult : Except Unit ParsedBody) (token : String)
      (crm : Nat → HttpResponse) (now : Int) (nowIso : String)
      (st : RateState),
      headerValue (handler event parseResult token crm now nowIso st).1.headers
          "Cache-Control" = some "no-store" ∧
      headerValue
          (handlePromoLead req parseResult token crm now nowIso st).1.headers
          "Cache-Control" = some "no-store" ∧
      headerValue (promoLeadHandler event parseResult now nowIso st).1.headers
          "Cache-Control" = some "no-store" :=
  fun event req parseResult token crm now nowIso st =>
    ⟨handler_no_store event parseResult token crm now nowIso st,
     handlePromoLead_no_store req parseResult token crm now nowIso st,
     promoLeadHandler_no_store event parseResult now nowIso st⟩

/-! ## CRM forwarding -/

/-- `response.ok` is exactly a 2xx status. -/
theorem respOk_iff (r : HttpResponse) :
    respOk r = true ↔ 200 ≤ r.status ∧ r.status < 300 := by
  simp [respOk]

/-- `syncLeadToHubSpot` outcome when the PATCH gets 404 and the POST
succeeds. -/
theorem syncLead_created_fst (token : String) (crm : Nat → HttpResponse)
    (lead : Lead) (htoken : token ≠ "") (hpatch : (crm 0).status = 404)
    (hok : respOk (crm 1) = true) :
    (syncLeadToHubSpot token crm lead).1 = .done "created" := by
  have h404 : respOk (crm 0) = false := by simp [respOk, hpatch]
  simp only [syncLeadToHubSpot, if_neg htoken, h404, Bool.false_eq_true,
    if_false, hpatch, hok, if_true, ne_eq, not_true_eq_false]

/-- The CRM requests issued when the PATCH gets 404 and the POST
succeeds: a PATCH then a POST. -/
theorem syncLead_created_methods (token : String) (crm : Nat → HttpResponse)
    (lead : Lead) (htoken : token ≠ "") (hpatch : (crm 0).status = 404)
    (hok : respOk (crm 1) = true) :
    ((syncLeadToHubSpot token crm lead).2).map CrmCall.method
      = ["PATCH", "POST"] := by
  have h404 : respOk (crm 0) = false := by simp [respOk, hpatch]
  simp only [syncLeadToHubSpot, if_neg htoken, h404, Bool.false_eq_true,
    if_false, hpatch, hok, if_true, ne_eq, not_true_eq_false,
    List.map_cons, List.map_nil]

/-- `syncLeadToHubSpot` outcome when the PATCH fails with a non-2xx,
non-404 status: the thrown error, carrying that status. -/
theorem syncLead_failed_fst (token : String) (crm : Nat → HttpResponse)
    (lead : Lead) (htoken : token ≠ "") (hfail : respOk (crm 0) = false)
    (hnot404 : (crm 0).status ≠ 404) :
    (syncLeadToHubSpot token crm lead).1 = .failed (crm 0).status := by
  simp only [syncLeadToHubSpot, if_neg htoken, hfail, Bool.false_eq_true,
    if_false, ne_eq]
  rw [if_pos hnot404]

/-- The CRM requests issued when the PATCH fails with a non-2xx, non-404
status: the single PATCH. -/
theorem syncLead_failed_methods (token : String) (crm : Nat → HttpResponse)
    (lead : Lead) (htoken : token ≠ "") (hfail : respOk (crm 0) = false)
    (hnot404 : (crm 0).status ≠ 404) :
    ((syncLeadToHubSpot token crm lead).2).map CrmCall.method = ["PATCH"] := by
  simp only [syncLeadToHubSpot, if_neg htoken, hfail, Bool.false_eq_true,
    if_false, ne_eq]
  rw [if_pos hnot404]
  simp only [List.map_cons, List.map_nil]

/-- C2: for a valid lead (POST, body within the ceiling, not
rate-limited, honeypot empty, valid name and email, CRM configured),
when the CRM answers the PATCH with 404 and the POST with a 2xx status,
the handler returns 200 `{ok:true, coupon:"BEST10"}` and performs
exactly two CRM calls, a PATCH followed by a POST. -/
theorem crm_upsert_404_then_create
    (event : Event) (parsed : ParsedBody) (token : String)
    (crm : Nat → HttpResponse) (now : Int) (nowIso : String) (st : RateState)
    (hmethod : event.httpMethod = "POST")
    (hsize : ¬ byteLength event.rawBody > MAX_BODY_SIZE)
    (hbody : event.rawBody ≠ "")
    (hlimit : (isRateLimited (getClientIp event.forwardedFor) now st).1 = false)
    (hcompany : coerceField parsed.company "" = "")
    (hname : ¬ (coerceField parsed.name "").length < 2)
    (hemail : emailRegexTest (coerceField parsed.email "") = true)
    (htoken : token ≠ "")
    (hpatch : (crm 0).status = 404)
    (hcreate : 200 ≤ (crm 1).status ∧ (crm 1).status < 300) :
    (handler event (.ok parsed) token crm now nowIso st).1
      = json 200 (.okCoupon "BEST10") ∧
    ((handler event (.ok parsed) token crm now nowIso st).2.2).map
        CrmCall.method = ["PATCH", "POST"] := by
  have hok : respOk (crm 1) = true := (respOk_iff _).mpr hcreate
  simp only [handler]
  rw [hmethod]
  rw [if_neg (by decide)]
  rw [if_neg (by decide)]
  rw [if_neg hsize]
  rw [hlimit]
  simp only [Bool.false_eq_true, if_false]
  rw [if_pos hbody]
  simp only []
  rw [hcompany]
  simp only [ne_eq, not_true_eq_false, if_false]
  rw [if_neg hname]
  simp only [hemail, Bool.not_true, Bool.false_eq_true, if_false]
  rw [syncLead_created_fst token crm _ htoken hpatch hok]
  rw [syncLead_created_methods token crm _ htoken hpatch hok]
  exact ⟨rfl, rfl⟩

/-- Closed instance of `crm_upsert_404_then_create` on the sample
event, the valid parsed body and the 404-then-201 CRM oracle. -/
theorem crm_upsert_404_then_create_witness :
    (sampleEvent.httpMethod = "POST") ∧
    (¬ byteLength sampleEvent.rawBody > MAX_BODY_SIZE) ∧
    (sampleEvent.rawBody ≠ "") ∧
    ((isRateLimited (getClientIp sampleEvent.forwardedFor) 0
        emptyRateState).1 = false) ∧
    (coerceField validParsed.company "" = "") ∧
    (¬ (coerceField validParsed.name "").length < 2) ∧
    (emailRegexTest (coerceField validParsed.email "") = true) ∧
    (("tok" : String) ≠ "") ∧
    ((crm404then201 0).status = 404) ∧
    (200 ≤ (crm404then201 1).status ∧ (crm404then201 1).status < 300) ∧
    ((handler sampleEvent (.ok validParsed) "tok" crm404then201 0 "iso"
        emptyRateState).1 = json 200 (.okCoupon "BEST10") ∧
      ((handler sampleEvent (.ok validParsed) "tok" crm404then201 0 "iso"
        emptyRateState).2.2).map CrmCall.method = ["PATCH", "POST"]) :=
  ⟨by decide, by decide, by decide, by decide, by decide, by decide,
   by decide, by decide, by decide, by decide,
   crm_upsert_404_then_create sampleEvent validParsed "tok" crm404then201
     0 "iso" emptyRateState (by decide) (by decide) (by decide) (by decide)
     (by decide) (by decide) (by decide) (by decide) (by decide)
     (by decide)⟩

/-- C3: for a valid lead, when the CRM answers the PATCH with a non-2xx
status other than 404, the handler returns 502 with the fixed generic
retry-later body (the upstream status and message never reach the
response) and performs exactly one CRM call, the PATCH. -/
theorem crm_update_failure_502
    (event : Event) (parsed : ParsedBody) (token : String)
    (crm : Nat → HttpResponse) (now : Int) (nowIso : String) (st : RateState)
    (hmethod : event.httpMethod = "POST")
    (hsize : ¬ byteLength event.rawBody > MAX_BODY_SIZE)
    (hbody : event.rawBody ≠ "")
    (hlimit : (isRateLimited (getClientIp event.forwardedFor) now st).1 = false)
    (hcompany : coerceField parsed.company "" = "")
    (hname : ¬ (coerceField parsed.name "").length < 2)
    (hemail : emailRegexTest (coerceField parsed.email "") = true)
    (htoken : token ≠ "")
    (hfail : ¬ (200 ≤ (crm 0).status ∧ (crm 0).status < 300))
    (hnot404 : (crm 0).status ≠ 404) :
    (handler event (.ok parsed) token crm now nowIso st).1
      = json 502
        (.err "Unable to save your lead right now. Please try again.") ∧
    ((handler event (.ok parsed) token crm now nowIso st).2.2).map
        CrmCall.method = ["PATCH"] := by
  have hfailb : respOk (crm 0) = false := by
    rw [Bool.eq_false_iff]
    intro htrue
    exact hfail ((respOk_iff _).mp htrue)
  simp only [handler]
  rw [hmethod]
  rw [if_neg (by decide)]
  rw [if_neg (by decide)]
  rw [if_neg hsize]
  rw [hlimit]
  simp only [Bool.false_eq_true, if_false]
  rw [if_pos hbody]
  simp only []
  rw [hcompany]
  simp only [ne_eq, not_true_eq_false, if_false]
  rw [if_neg hname]
  simp only [hemail, Bool.not_true, Bool.false_eq_true, if_false]
  rw [syncLead_failed_fst token crm _ htoken hfailb hnot404]
  rw [syncLead_failed_methods token crm _ htoken hfailb hnot404]
  exact ⟨rfl, rfl⟩

/-- Closed instance of `crm_update_failure_502` on the sample event,
the valid parsed body and the all-500 CRM oracle. -/
theorem crm_update_failure_502_witness :
    (sampleEvent.httpMethod = "POST") ∧
    (¬ byteLength sampleEvent.rawBody > MAX_BODY_SIZE) ∧
    (sampleEvent.rawBody ≠ "") ∧
    ((isRateLimited (getClientIp sampleEvent.forwardedFor) 0
        emptyRateState).1 = false) ∧
    (coerceField validParsed.company "" = "") ∧
    (¬ (coerceField validParsed.name "").length < 2) ∧
    (emailRegexTest (coerceField validParsed.email "") = true) ∧
    (("tok" : String) ≠ "") ∧
    (¬ (200 ≤ (crm500 0).status ∧ (crm500 0).status < 300)) ∧
    ((crm500 0).status ≠ 404) ∧
    ((handler sampleEvent (.ok validParsed) "tok" crm500 0 "iso"
        emptyRateState).1
      = json 502
        (.err "Unable to save your lead right now. Please try again.") ∧
      ((handler sampleEvent (.ok validParsed) "tok" crm500 0 "iso"
        emptyRateState).2.2).map CrmCall.method = ["PATCH"]) :=
  ⟨by decide, by decide, by decide, by decide, by decide, by decide,
   by decide, by decide, by decide, by decide,
   crm_update_failure_502 sampleEvent validParsed "tok" crm500
     0 "iso" emptyRateState (by decide) (by decide) (by decide) (by decide)
     (by decide) (by decide) (by decide) (by decide) (by decide)
     (by decide)⟩

/-! ## Honeypot -/

/-- C4: the claim fails on a whitespace-only honeypot value.  The parsed
body carries `company = " "` — a non-empty string — together with a
valid name and email, yet the handler trims the field, finds it empty,
runs full validation, invokes the CRM forward (one PATCH is issued) and
returns 200 *with* the coupon, instead of the claimed coupon-free
`{ok:true}` with no CRM call. -/
theorem honeypot_whitespace_counterexample :
    ((" " : String) ≠ "") ∧
    (handler sampleEvent
        (.ok { name := .str "Jo", email := .str "a@b.co",
               company := .str " " })
        "tok" (fun _ => ⟨200⟩) 0 "iso" emptyRateState).1
      = json 200 (.okCoupon "BEST10") ∧
    ((handler sampleEvent
        (.ok { name := .str "Jo", email := .str "a@b.co",
               company := .str " " })
        "tok" (fun _ => ⟨200⟩) 0 "iso" emptyRateState).2.2).length = 1 := by
  refine ⟨by decide, by decide, by decide⟩

/-- C4 (amended): for every POST request whose parsed honeypot field
(`company`) is non-empty *after trimming*, both handler variants return
200 `{ok:true}` with no coupon field and issue no CRM call, regardless
of the name and email fields — the honeypot short-circuit precedes
validation. -/
theorem honeypot_short_circuit
    (event : Event) (req : ServerReq) (parsed : ParsedBody) (token : String)
    (crm : Nat → HttpResponse) (now : Int) (nowIso : String) (st : RateState)
    (hmethod : event.httpMethod = "POST")
    (hsize : ¬ byteLength event.rawBody > MAX_BODY_SIZE)
    (hbody : event.rawBody ≠ "")
    (hlimit : (isRateLimited (getClientIp event.forwardedFor) now st).1 = false)
    (hmethod' : req.method = "POST")
    (hlimit' : (isRateLimited
        (getClientIpServer req.forwardedFor req.remoteAddress) now st).1
      = false)
    (hsize' : ¬ byteLength req.rawBody > MAX_BODY_SIZE)
    (hbody' : req.rawBody ≠ "")
    (hcompany : coerceField parsed.company "" ≠ "") :
    ((handler event (.ok parsed) token crm now nowIso st).1
        = json 200 .okOnly ∧
      (handler event (.ok parsed) token crm now nowIso st).2.2 = []) ∧
    ((handlePromoLead req (.ok parsed) token crm now nowIso st).1
        = json 200 .okOnly ∧
      (handlePromoLead req (.ok parsed) token crm now nowIso st).2.2 = []) := by
  constructor
  · simp only [handler]
    rw [hmethod]
    rw [if_neg (by decide)]
    rw [if_neg (by decide)]
    rw [if_neg hsize]
    rw [hlimit]
    simp only [Bool.false_eq_true, if_false]
    rw [if_pos hbody]
    simp only []
    rw [if_pos hcompany]
    exact ⟨rfl, rfl⟩
  · simp only [handlePromoLead]
    rw [hmethod']
    rw [if_neg (by decide)]
    rw [if_neg (by decide)]
    rw [hlimit']
    simp only [Bool.false_eq_true, if_false]
    rw [if_neg hsize']
    rw [if_pos hbody']
    simp only []
    rw [if_pos hcompany]
    exact ⟨rfl, rfl⟩

/-- Closed instance of `honeypot_short_circuit` with honeypot value
`"bot"` and a valid name and email. -/
theorem honeypot_short_circuit_witness :
    (sampleEvent.httpMethod = "POST") ∧
    (¬ byteLength sampleEvent.rawBody > MAX_BODY_SIZE) ∧
    (sampleEvent.rawBody ≠ "") ∧
    ((isRateLimited (getClientIp sampleEvent.forwardedFor) 0
        emptyRateState).1 = false) ∧
    (sampleReq.method = "POST") ∧
    ((isRateLimited
        (getClientIpServer sampleReq.forwardedFor sampleReq.remoteAddress) 0
        emptyRateState).1 = false) ∧
    (¬ byteLength sampleReq.rawBody > MAX_BODY_SIZE) ∧
    (sampleReq.rawBody ≠ "") ∧
    (coerceField (ParsedBody.company
        { name := .str "Jo", email := .str "a@b.co",
          company := .str "bot" }) "" ≠ "") ∧
    (((handler sampleEvent
        (.ok { name := .str "Jo", email := .str "a@b.co",
               company := .str "bot" })
        "tok" crm500 0 "iso" emptyRateState).1 = json 200 .okOnly ∧
      (handler sampleEvent
        (.ok { name := .str "Jo", email := .str "a@b.co",
               company := .str "bot" })
        "tok" crm500 0 "iso" emptyRateState).2.2 = []) ∧
     ((handlePromoLead sampleReq
        (.ok { name := .str "Jo", email := .str "a@b.co",
               company := .str "bot" })
        "tok" crm500 0 "iso" emptyRateState).1 = json 200 .okOnly ∧
      (handlePromoLead sampleReq
        (.ok { name := .str "Jo", email := .str "a@b.co",
               company := .str "bot" })
        "tok" crm500 0 "iso" emptyRateState).2.2 = [])) :=
  ⟨by decide, by decide, by decide, by decide, by decide, by decide,
   by decide, by decide, by decide,
   honeypot_short_circuit sampleEvent sampleReq
     { name := .str "Jo", email := .str "a@b.co", company := .str "bot" }
     "tok" crm500 0 "iso" emptyRateState (by decide) (by decide) (by decide)
     (by decide) (by decide) (by decide) (by decide) (by decide)
     (by decide)⟩

/-! ## Body-size ceiling -/

/-- The oversized fixture really exceeds the 16 KiB ceiling. -/
theorem oversizedBody_big : byteLength oversizedBody > MAX_BODY_SIZE := by
  have hchar : Char.utf8Size 'a' = 1 := by decide
  have hlen : byteLength oversizedBody = 16385 := by
    rw [oversizedBody, byteLength]
    show ((List.replicate 16385 'a').map Char.utf8Size).sum = 16385
    rw [List.map_replicate, hchar, List.sum_replicate, smul_eq_mul,
      Nat.mul_one]
  rw [hlen]
  norm_num [MAX_BODY_SIZE]

/-- C5: the claim fails on the standalone server: there the rate limiter
runs before the body is read, so an oversized POST from an over-limit
client is answered 429 — not 413 — and the check has consumed another
rate-limit slot (the bucket gained the new timestamp). -/
theorem oversized_body_rate_limited_counterexample :
    byteLength oversizedReq.rawBody > MAX_BODY_SIZE ∧
    (handlePromoLead oversizedReq (.error ()) "" crm500 1 "iso"
        fullState).1.statusCode = 429 ∧
    (handlePromoLead oversizedReq (.error ()) "" crm500 1 "iso"
        fullState).2.1 "9.9.9.9" = [0, 0, 0, 0, 0, 1] :=
  ⟨oversizedBody_big, by decide, by decide⟩

/-- C5 (amended): in the serverless handler the size check precedes the
rate limiter, so an oversized POST body is rejected 413 before JSON
parsing (the parse oracle is irrelevant) and the rate state is left
untouched — it never yields 429 and never consumes a slot.  In the
standalone-server handler the rate limiter runs before the body is
read: a not-rate-limited oversized POST is still rejected 413 before
parsing, but the check has already updated the rate state (a slot is
consumed). -/
theorem size_ceiling_by_variant
    (event : Event) (req : ServerReq) (parseResult : Except Unit ParsedBody)
    (token : String) (crm : Nat → HttpResponse) (now : Int) (nowIso : String)
    (st : RateState)
    (hmethod : event.httpMethod = "POST")
    (hbig : byteLength event.rawBody > MAX_BODY_SIZE)
    (hmethod' : req.method = "POST")
    (hlimit' : (isRateLimited
        (getClientIpServer req.forwardedFor req.remoteAddress) now st).1
      = false)
    (hbig' : byteLength req.rawBody > MAX_BODY_SIZE) :
    ((handler event parseResult token crm now nowIso st).1
        = json 413 (.err "Payload too large.") ∧
      (handler event parseResult token crm now nowIso st).2.1 = st) ∧
    ((handlePromoLead req parseResult token crm now nowIso st).1
        = json 413 (.err "Payload too large.") ∧
      (handlePromoLead req parseResult token crm now nowIso st).2.1
        = (isRateLimited
            (getClientIpServer req.forwardedFor req.remoteAddress) now
            st).2) := by
  constructor
  · simp only [handler]
    rw [hmethod]
    rw [if_neg (by decide)]
    rw [if_neg (by decide)]
    rw [if_pos hbig]
    exact ⟨rfl, rfl⟩
  · simp only [handlePromoLead]
    rw [hmethod']
    rw [if_neg (by decide)]
    rw [if_neg (by decide)]
    rw [hlimit']
    simp only [Bool.false_eq_true, if_false]
    rw [if_pos hbig']
    exact ⟨rfl, rfl⟩

/-- Closed instance of `size_ceiling_by_variant` on the oversized
fixtures and the empty rate state. -/
theorem size_ceiling_by_variant_witness :
    (oversizedEvent.httpMethod = "POST") ∧
    (byteLength oversizedEvent.rawBody > MAX_BODY_SIZE) ∧
    (oversizedReq.method = "POST") ∧
    ((isRateLimited
        (getClientIpServer oversizedReq.forwardedFor
          oversizedReq.remoteAddress) 0 emptyRateState).1 = false) ∧
    (((handler oversizedEvent (.error ()) "" crm500 0 "iso"
          emptyRateState).1 = json 413 (.err "Payload too large.") ∧
      (handler oversizedEvent (.error ()) "" crm500 0 "iso"
          emptyRateState).2.1 = emptyRateState) ∧
     ((handlePromoLead oversizedReq (.error ()) "" crm500 0 "iso"
          emptyRateState).1 = json 413 (.err "Payload too large.") ∧
      (handlePromoLead oversizedReq (.error ()) "" crm500 0 "iso"
          emptyRateState).2.1
        = (isRateLimited
            (getClientIpServer oversizedReq.forwardedFor
              oversizedReq.remoteAddress) 0 emptyRateState).2)) :=
  ⟨rfl, oversizedBody_big, rfl, by decide,
   size_ceiling_by_variant oversizedEvent oversizedReq (.error ()) "" crm500
     0 "iso" emptyRateState rfl oversizedBody_big rfl (by decide)
     oversizedBody_big⟩

/-! ## Empty body -/

/-- C9: a POST whose raw body is the empty string, from a client that is
not rate-limited, is never answered with 400 "Invalid request body.":
the empty body bypasses the parse oracle entirely (it parses to the
empty object) and field validation rejects it instead — 400 "Please send
your name." in the name-collecting variants, 400 "Please send a valid
email address." in the no-name variant. -/
theorem empty_body_field_validation
    (event : Event) (req : ServerReq) (parseResult : Except Unit ParsedBody)
    (token : String) (crm : Nat → HttpResponse) (now : Int) (nowIso : String)
    (st : RateState)
    (hmethod : event.httpMethod = "POST") (hempty : event.rawBody = "")
    (hlimit : (isRateLimited (getClientIp event.forwardedFor) now st).1 = false)
    (hmethod' : req.method = "POST") (hempty' : req.rawBody = "")
    (hlimit' : (isRateLimited
        (getClientIpServer req.forwardedFor req.remoteAddress) now st).1
      = false) :
    (handler event parseResult token crm now nowIso st).1
      = json 400 (.err "Please send your name.") ∧
    (handlePromoLead req parseResult token crm now nowIso st).1
      = json 400 (.err "Please send your name.") ∧
    (promoLeadHandler event parseResult now nowIso st).1
      = json 400 (.err "Please send a valid email address.") ∧
    (handler event parseResult token crm now nowIso st).1
      ≠ json 400 (.err "Invalid request body.") ∧
    (handlePromoLead req parseResult token crm now nowIso st).1
      ≠ json 400 (.err "Invalid request body.") ∧
    (promoLeadHandler event parseResult now nowIso st).1
      ≠ json 400 (.err "Invalid request body.") := by
  have h1 : (handler event parseResult token crm now nowIso st).1
      = json 400 (.err "Please send your name.") := by
    simp only [handler]
    rw [hmethod, hempty]
    rw [if_neg (by decide)]
    rw [if_neg (by decide)]
    rw [if_neg (by decide)]
    rw [hlimit]
    simp only [Bool.false_eq_true, if_false]
    rw [if_neg (by decide)]
    simp [emptyBody, coerceField]
  have h2 : (handlePromoLead req parseResult token crm now nowIso st).1
      = json 400 (.err "Please send your name.") := by
    simp only [handlePromoLead]
    rw [hmethod', hempty']
    rw [if_neg (by decide)]
    rw [if_neg (by decide)]
    rw [hlimit']
    simp only [Bool.false_eq_true, if_false]
    rw [if_neg (by decide)]
    rw [if_neg (by decide)]
    simp [emptyBody, coerceField]
  have h3 : (promoLeadHandler event parseResult now nowIso st).1
      = json 400 (.err "Please send a valid email address.") := by
    simp only [promoLeadHandler]
    rw [hmethod, hempty]
    rw [if_neg (by decide)]
    rw [if_neg (by decide)]
    rw [if_neg (by decide)]
    rw [hlimit]
    simp only [Bool.false_eq_true, if_false]
    rw [if_neg (by decide)]
    simp [emptyBody, coerceField, emailRegexTest, matchEmail]
  refine ⟨h1, h2, h3, ?_, ?_, ?_⟩
  · rw [h1]; decide
  · rw [h2]; decide
  · rw [h3]; decide

/-- Closed instance of `empty_body_field_validation` on the empty-body
fixtures, with a parse oracle that would report malformed JSON. -/
theorem empty_body_field_validation_witness :
    (emptyBodyEvent.httpMethod = "POST") ∧
    (emptyBodyEvent.rawBody = "") ∧
    ((isRateLimited (getClientIp emptyBodyEvent.forwardedFor) 0
        emptyRateState).1 = false) ∧
    (emptyBodyReq.method = "POST") ∧
    (emptyBodyReq.rawBody = "") ∧
    ((isRateLimited
        (getClientIpServer emptyBodyReq.forwardedFor
          emptyBodyReq.remoteAddress) 0 emptyRateState).1 = false) ∧
    ((handler emptyBodyEvent (.error ()) "tok" crm500 0 "iso"
        emptyRateState).1 = json 400 (.err "Please send your name.") ∧
      (handlePromoLead emptyBodyReq (.error ()) "tok" crm500 0 "iso"
        emptyRateState).1 = json 400 (.err "Please send your name.") ∧
      (promoLeadHandler emptyBodyEvent (.error ()) 0 "iso"
        emptyRateState).1
        = json 400 (.err "Please send a valid email address.") ∧
      (handler emptyBodyEvent (.error ()) "tok" crm500 0 "iso"
        emptyRateState).1 ≠ json 400 (.err "Invalid request body.") ∧
      (handlePromoLead emptyBodyReq (.error ()) "tok" crm500 0 "iso"
        emptyRateState).1 ≠ json 400 (.err "Invalid request body.") ∧
      (promoLeadHandler emptyBodyEvent (.error ()) 0 "iso"
        emptyRateState).1 ≠ json 400 (.err "Invalid request body.")) :=
  ⟨rfl, rfl, by decide, rfl, rfl, by decide,
   empty_body_field_validation emptyBodyEvent emptyBodyReq (.error ())
     "tok" crm500 0 "iso" emptyRateState rfl rfl (by decide) rfl rfl
     (by decide)⟩

end BestWay
